import Mathlib

/-!
Verification of the IoT-Smart-Plug adaptive calibration firmware.

This file is a shallow embedding of the calibration/recognition core of the
firmware (src/firmware/src/sct_calibration.c, udp_sender.c, udp_receiver.c,
constants from include/hardware_config.h).  C `float` arithmetic is idealised
as exact rational arithmetic (the constants of the claims are exactly
representable in this model); the `sqrt` and `pow` of the C library are the
real square root and real power.  ADC reads that may fail are `Option`
values; FreeRTOS tick timestamps are naturals (milliseconds), and the C
`uint32_t` subtraction `now - earlier` is natural truncated subtraction,
which agrees with the C value whenever `earlier ≤ now`.
-/

namespace SmartPlug

/-! ### Constants from hardware_config.h -/

/-- AUTO_CAL_ZERO_THRESHOLD: 0.05f, below this a reading counts as zero. -/
def AUTO_CAL_ZERO_THRESHOLD : ℚ := 5 / 100

/-- AUTO_CAL_VARIANCE_THRESHOLD: 0.1f, current stability threshold. -/
def AUTO_CAL_VARIANCE_THRESHOLD : ℚ := 1 / 10

/-- AUTO_CAL_MIN_CURRENT: 0.5f, minimum current for scale calibration. -/
def AUTO_CAL_MIN_CURRENT : ℚ := 1 / 2

/-- AUTO_CAL_MAX_CURRENT: 15.0f, maximum current for scale calibration. -/
def AUTO_CAL_MAX_CURRENT : ℚ := 15

/-- AUTO_CAL_ZERO_INTERVAL_MS: 30 minutes. -/
def AUTO_CAL_ZERO_INTERVAL_MS : ℕ := 30 * 60 * 1000

/-- DEVICE_STABLE_TIME_MS: 3 minutes of stable operation. -/
def DEVICE_STABLE_TIME_MS : ℕ := 3 * 60 * 1000

/-- DEVICE_RECOGNITION_CONFIDENCE: 0.9f. -/
def DEVICE_RECOGNITION_CONFIDENCE : ℚ := 9 / 10

/-- MAX_CURRENT_AMPS: 100.0f. -/
def MAX_CURRENT_AMPS : ℚ := 100

/-- HISTORY_SIZE from sct_calibration.c: capacity of the current history. -/
def HISTORY_SIZE : ℕ := 50

/-- ADC_RESOLUTION: 4095.0f. -/
def ADC_RESOLUTION : ℚ := 4095

/-- ADC_VOLTAGE_RANGE: 3.3f. -/
def ADC_VOLTAGE_RANGE : ℚ := 33 / 10

/-- MIN_LEARNING_POINTS: 3, minimum points before learning kicks in. -/
def MIN_LEARNING_POINTS : ℕ := 3

/-- LEARNING_CONFIDENCE_DECAY: 0.95f per day (cast to ℝ where it is raised
to a real exponent). -/
def LEARNING_CONFIDENCE_DECAY : ℚ := 95 / 100

/-- Conversion of a raw ADC value to a voltage, as done at every read site:
`voltage = ((float)adc_value / ADC_RESOLUTION) * ADC_VOLTAGE_RANGE`. -/
def adc_to_voltage (adc : ℚ) : ℚ := adc / ADC_RESOLUTION * ADC_VOLTAGE_RANGE

/-! ### Device recognition (sct_calibration.c, lines 42-55 and 239-279) -/

/-- device_profile_t from sct_calibration.h. -/
structure DeviceProfile where
  min_current : ℚ
  max_current : ℚ
  typical_current : ℚ
  device_name : String
  confidence_boost : ℚ
deriving DecidableEq

/-- The static catalog `known_devices` of sct_calibration.c, in declaration
order. -/
def known_devices : List DeviceProfile :=
  [⟨4 / 10, 7 / 10, 5 / 10, "60W Incandescent Bulb", 12 / 10⟩,
   ⟨8 / 10, 12 / 10, 1, "100W Incandescent Bulb", 12 / 10⟩,
   ⟨4, 6, 5, "Hair Dryer Low Setting", 15 / 10⟩,
   ⟨10, 15, 25 / 2, "Hair Dryer High Setting", 15 / 10⟩,
   ⟨8, 12, 10, "Space Heater", 13 / 10⟩,
   ⟨12, 16, 14, "Microwave Oven", 14 / 10⟩,
   ⟨6, 10, 8, "Coffee Maker", 11 / 10⟩,
   ⟨1 / 10, 3 / 10, 2 / 10, "LED Strip/Small Electronics", 8 / 10⟩,
   ⟨2, 4, 3, "Laptop/Monitor", 9 / 10⟩,
   ⟨2 / 100, 1 / 10, 5 / 100, "Phone Charger/Standby", 5 / 10⟩]

/-- The loop condition of `recognize_device`: the query current lies in the
closed range of the profile. -/
def device_matches (x : ℚ) (d : DeviceProfile) : Bool :=
  decide (d.min_current ≤ x ∧ x ≤ d.max_current)

/-- recognize_device: linear scan of the catalog, returning the first profile
whose closed range contains the query (sct_calibration.c lines 271-279). -/
def recognize_device (x : ℚ) : Option DeviceProfile :=
  known_devices.find? (device_matches x)

/-- The match quality of auto_recognize_and_calibrate (line 247):
`1 - |measured - typical| / (max - min)`. -/
def match_quality (m : ℚ) (d : DeviceProfile) : ℚ :=
  1 - |m - d.typical_current| / (d.max_current - d.min_current)

/-- The recognition confidence (line 249):
`match_quality * confidence_boost * sensitivity`. -/
def recognition_confidence (m sens : ℚ) (d : DeviceProfile) : ℚ :=
  match_quality m d * d.confidence_boost * sens

/-- Outcome of one call of `auto_recognize_and_calibrate`:
which known-load calibration (if any) was triggered, and the updated
recognition counters. -/
structure RecognitionOutcome where
  calibrate_with : Option ℚ
  successful_recognitions : ℕ
  failed_recognitions : ℕ
deriving DecidableEq

/-- auto_recognize_and_calibrate (sct_calibration.c lines 239-269): look the
measured current up in the catalog; on a match, trigger
`calibrate_with_known_load(typical)` and count a success exactly when the
confidence exceeds DEVICE_RECOGNITION_CONFIDENCE, otherwise count a failure;
on no match do nothing. -/
def auto_recognize_and_calibrate (m sens : ℚ) (succ fail : ℕ) :
    RecognitionOutcome :=
  match recognize_device m with
  | none => ⟨none, succ, fail⟩
  | some d =>
    if recognition_confidence m sens d > DEVICE_RECOGNITION_CONFIDENCE then
      ⟨some d.typical_current, succ + 1, fail⟩
    else
      ⟨none, succ, fail + 1⟩

/-! ### Learning system (sct_calibration.c, lines 298-378) -/

/-- calibration_point_t from sct_calibration.h. -/
structure CalibrationPoint where
  expected_current : ℚ
  measured_voltage : ℚ
  timestamp : ℕ
  confidence : ℚ
  auto_generated : Bool
deriving DecidableEq

/-- learn_from_calibration (lines 299-323): the calibration point recorded
for an observation; manual calibrations get confidence 1.0, automatic ones
0.8, and `auto_generated` is the negation of `manual`. -/
def learn_from_calibration (now : ℕ) (expected_current measured_voltage : ℚ)
    (manual : Bool) : CalibrationPoint :=
  ⟨expected_current, measured_voltage, now,
   if manual then 1 else 8 / 10, !manual⟩

/-- The weight of one learning point in apply_learned_calibration
(lines 338-340): `confidence * decay^(age_ms / 86400000) * learning_rate`,
where the decay base is LEARNING_CONFIDENCE_DECAY and the exponent is the
age in (fractional) days. -/
noncomputable def point_weight (lr : ℚ) (now : ℕ) (p : CalibrationPoint) : ℝ :=
  (p.confidence : ℝ) *
    (LEARNING_CONFIDENCE_DECAY : ℝ) ^
      (((now - p.timestamp : ℕ) : ℝ) / (24 * 60 * 60 * 1000)) *
    (lr : ℝ)

/-- The accumulation loop of apply_learned_calibration (lines 337-347):
fold over the stored points, keeping (numerator, denominator, total_weight);
points whose measured voltage is at most 0.001 are skipped. -/
noncomputable def learning_accumulate (now : ℕ) (lr : ℚ)
    (points : List CalibrationPoint) : ℝ × ℝ × ℝ :=
  points.foldl
    (fun acc p =>
      let w := point_weight lr now p
      if p.measured_voltage > 1 / 1000 then
        (acc.1 + (p.expected_current : ℝ) * w,
         acc.2.1 + (p.measured_voltage : ℝ) * w,
         acc.2.2 + w)
      else acc)
    (0, 0, 0)

/-- The learned scale estimate `numerator / denominator` of
apply_learned_calibration (line 350). -/
noncomputable def learned_scale_estimate (now : ℕ) (lr : ℚ)
    (points : List CalibrationPoint) : ℝ :=
  (learning_accumulate now lr points).1 / (learning_accumulate now lr points).2.1

open Classical in
/-- apply_learned_calibration (lines 325-366) as a function from the stored
points and the current scale factor to the new scale factor.  Requires at
least MIN_LEARNING_POINTS points; computes the weighted estimate; when the
denominator exceeds 0.001 and the total weight exceeds 0.1, accepts the
estimate only if it is strictly within ±50 % of the current scale, applying
the damped update `0.7 * current + 0.3 * learned`; in every other case the
scale is left unchanged.  (The C code iterates over
`min(learning_point_count, MAX_LEARNING_POINTS)` array slots, which is
exactly the list of stored points modelled here.) -/
noncomputable def apply_learned_calibration (now : ℕ) (lr : ℚ)
    (points : List CalibrationPoint) (current_scale : ℝ) : ℝ :=
  if points.length < MIN_LEARNING_POINTS then current_scale
  else
    let acc := learning_accumulate now lr points
    if acc.2.1 > 1 / 1000 ∧ acc.2.2 > 1 / 10 then
      let learned := acc.1 / acc.2.1
      if learned > current_scale * (1 / 2) ∧ learned < current_scale * (3 / 2)
      then current_scale * (7 / 10) + learned * (3 / 10)
      else current_scale
    else current_scale

/-! ### History and stability detector (sct_calibration.c, lines 141-236) -/

/-- The mutable state read and written by
`process_current_for_auto_calibration` / `continuous_auto_calibration`:
the current-history ring buffer and the static locals of the stability
state machine.  `in_stable_period = false` is the Idle state of the spec,
`in_stable_period = true` covers StableStart/StableHolding. -/
structure AutoCalState where
  current_history : List ℚ
  history_index : ℕ
  history_full : Bool
  consecutive_zero_readings : ℕ
  in_stable_period : Bool
  stable_load_start : ℕ
  stable_load_value : ℚ
  last_scale_calibration : ℕ
deriving DecidableEq

/-- The state after sct_calibration_init: zeroed history, all counters and
flags cleared. -/
def initState : AutoCalState :=
  ⟨List.replicate HISTORY_SIZE 0, 0, false, 0, false, 0, 0, 0⟩

/-- Mean of the history window (lines 178-182): sum divided by
HISTORY_SIZE. -/
def history_mean (h : List ℚ) : ℚ := h.sum / (HISTORY_SIZE : ℚ)

/-- Population variance of the history window (lines 184-189): mean of the
squared deviations from the mean, divided by HISTORY_SIZE. -/
def history_variance (h : List ℚ) : ℚ :=
  (h.map (fun x => (x - history_mean h) * (x - history_mean h))).sum /
    (HISTORY_SIZE : ℚ)

/-- The stability test of lines 192-194: variance below threshold and mean
within the calibration current range. -/
abbrev stable_window (h : List ℚ) : Prop :=
  history_variance h < AUTO_CAL_VARIANCE_THRESHOLD ∧
    AUTO_CAL_MIN_CURRENT ≤ history_mean h ∧
    history_mean h ≤ AUTO_CAL_MAX_CURRENT

/-- Externally visible effects of one stability-detector step: the value
passed to `auto_recognize_and_calibrate` (if invoked) and the value passed
to `calibrate_with_known_load` (if a scale recalibration was triggered). -/
structure StepEvents where
  recognize_invoked : Option ℚ
  scale_cal_invoked : Option ℚ
deriving DecidableEq

/-- continuous_auto_calibration (lines 163-236).  A near-zero reading only
bumps `consecutive_zero_readings`; otherwise that counter resets and, once
the history ring has filled, the window statistics drive the stability
state machine exactly as in the C code. -/
def continuous_auto_calibration (now : ℕ) (reading : ℚ)
    (st : AutoCalState) : AutoCalState × StepEvents :=
  if reading < AUTO_CAL_ZERO_THRESHOLD then
    ({ st with consecutive_zero_readings := st.consecutive_zero_readings + 1 },
     ⟨none, none⟩)
  else
    let st1 := { st with consecutive_zero_readings := 0 }
    if st1.history_full then
      let mean := history_mean st1.current_history
      if stable_window st1.current_history ∧ st1.in_stable_period = false then
        ({ st1 with stable_load_start := now, stable_load_value := mean,
                    in_stable_period := true },
         ⟨some mean, none⟩)
      else if stable_window st1.current_history ∧ st1.in_stable_period = true
      then
        if now - st1.stable_load_start > DEVICE_STABLE_TIME_MS then
          if now - st1.last_scale_calibration > AUTO_CAL_ZERO_INTERVAL_MS then
            ({ st1 with last_scale_calibration := now,
                        in_stable_period := false },
             ⟨none, some st1.stable_load_value⟩)
          else
            ({ st1 with in_stable_period := false }, ⟨none, none⟩)
        else (st1, ⟨none, none⟩)
      else
        ({ st1 with in_stable_period := false }, ⟨none, none⟩)
    else (st1, ⟨none, none⟩)

/-- The history update at the top of process_current_for_auto_calibration
(lines 146-151): write the reading at the current index, advance the index
modulo HISTORY_SIZE, and mark the ring full when the index wraps to 0. -/
def update_history (reading : ℚ) (st : AutoCalState) : AutoCalState :=
  let h := st.current_history.set st.history_index reading
  let idx := (st.history_index + 1) % HISTORY_SIZE
  { st with current_history := h, history_index := idx,
            history_full := if idx = 0 then true else st.history_full }

/-- process_current_for_auto_calibration (lines 141-161): update the history
ring, then run the stability state machine on the new reading. -/
def process_current_for_auto_calibration (now : ℕ) (reading : ℚ)
    (st : AutoCalState) : AutoCalState × StepEvents :=
  continuous_auto_calibration now reading (update_history reading st)

/-- Feeding the detector the constant reading 3.0 `n` times from the initial
state, all at time 0. -/
def feed_constant_three : ℕ → AutoCalState
  | 0 => initState
  | n + 1 =>
    (process_current_for_auto_calibration 0 3 (feed_constant_three n)).1

/-! ### RMS measurement engine (udp_sender.c, lines 69-148) -/

/-- The sampling loop of measure_rms_current: for each successfully read
tick, convert to a voltage, subtract the bias, and accumulate the count of
valid samples and the sum of squared AC voltages.  (The push into the
diagnostic `voltage_buffer` has no effect on the returned current and is
not modelled.) -/
def rms_fold (bias : ℚ) (ticks : List (Option ℚ)) : ℕ × ℚ :=
  ticks.foldl
    (fun acc t =>
      match t with
      | some adc =>
        let ac := adc_to_voltage adc - bias
        (acc.1 + 1, acc.2 + ac * ac)
      | none => acc)
    (0, 0)

/-- measure_rms_current (udp_sender.c lines 69-148): if no tick was read
successfully, return 0 (the C code logs a warning); otherwise return
`sqrt(voltage_sum_squared / valid_samples) * scale`. -/
noncomputable def measure_rms_current (bias scale : ℚ)
    (ticks : List (Option ℚ)) : ℝ :=
  let a := rms_fold bias ticks
  if a.1 = 0 then 0
  else Real.sqrt ((a.2 : ℝ) / (a.1 : ℝ)) * (scale : ℝ)

/-- The list of AC-component voltages of the successfully read ticks, in
order: the closed form of what the sampling loop of measure_rms_current
ranges over. -/
def ac_samples (bias : ℚ) (ticks : List (Option ℚ)) : List ℚ :=
  (ticks.filterMap id).map (fun adc => adc_to_voltage adc - bias)

/-! ### Known-load scale calibration (sct_calibration.c, lines 567-614) -/

/-- The sampling loop of calibrate_with_known_load: accumulate the sum of
AC-voltage magnitudes that exceed 0.001 V, and their count
(`valid_samples`). -/
def calibrate_fold (bias : ℚ) (ticks : List (Option ℚ)) : ℚ × ℕ :=
  ticks.foldl
    (fun acc t =>
      match t with
      | some adc =>
        let ac := |adc_to_voltage adc - bias|
        if ac > 1 / 1000 then (acc.1 + ac, acc.2 + 1) else acc
      | none => acc)
    (0, 0)

/-- The non-negligible AC-voltage magnitudes of the successfully read ticks:
closed form of what calibrate_fold sums over. -/
def valid_ac_magnitudes (bias : ℚ) (ticks : List (Option ℚ)) : List ℚ :=
  ((ticks.filterMap id).map (fun adc => |adc_to_voltage adc - bias|)).filter
    (fun ac => decide (ac > 1 / 1000))

/-- calibrate_with_known_load (sct_calibration.c lines 567-614) as a function
of the current parameters, the known current and the 50 sampled ticks.
Returns the new scale factor together with the manual learning point
recorded on success (`learn_from_calibration(known_amps, avg_voltage, true)`);
when the known current is out of range or `valid_samples > 10` fails, the
scale is unchanged and no point is recorded. -/
def calibrate_with_known_load (now : ℕ) (bias scale known_amps : ℚ)
    (ticks : List (Option ℚ)) : ℚ × Option CalibrationPoint :=
  if known_amps ≤ 0 ∨ known_amps > MAX_CURRENT_AMPS then (scale, none)
  else
    let acc := calibrate_fold bias ticks
    if acc.2 > 10 then
      let avg_voltage := acc.1 / (acc.2 : ℚ)
      (known_amps / avg_voltage,
       some (learn_from_calibration now known_amps avg_voltage true))
    else (scale, none)

/-! ### Sensitivity adaptation (sct_calibration.c, lines 396-431) -/

/-- adaptive_threshold_adjustment (lines 396-423) as a function of the
current time, the time of the last adjustment, the recognition counters and
the sensitivity.  Returns the new sensitivity and the new last-adjustment
time.  Runs at most hourly; the success rate defaults to 0.5 with no
recorded attempts; raises by 0.05 when the rate exceeds 0.8 and the
sensitivity is below 0.9, lowers by 0.05 when the rate is below 0.4 and the
sensitivity is above 0.3. -/
def adaptive_threshold_adjustment (now last_adjustment : ℕ)
    (succ fail : ℕ) (sens : ℚ) : ℚ × ℕ :=
  if now - last_adjustment < 60 * 60 * 1000 then (sens, last_adjustment)
  else
    let success_rate : ℚ :=
      if succ + fail > 0 then (succ : ℚ) / ((succ : ℚ) + (fail : ℚ))
      else 1 / 2
    if success_rate > 8 / 10 ∧ sens < 9 / 10 then (sens + 5 / 100, now)
    else if success_rate < 4 / 10 ∧ sens > 3 / 10 then (sens - 5 / 100, now)
    else (sens, now)

/-- set_auto_cal_sensitivity (lines 426-431): the manual override accepts
exactly the range [0, 1] and otherwise leaves the sensitivity unchanged. -/
def set_auto_cal_sensitivity (v sens : ℚ) : ℚ :=
  if 0 ≤ v ∧ v ≤ 1 then v else sens

/-! ### UDP command dispatch over the calibration parameters
(udp_receiver.c, lines 75-353; sct_calibration.c, lines 616-688, 735-777)

The ASCII framing/parsing of the datagram is abstracted: each command is
modelled after `atof` has extracted its numeric arguments, and only the
effect on the calibration parameter pair (bias voltage, scale factor) and
the response status are modelled.  Commands that do not touch the
calibration parameters are not listed. -/

/-- CalibrationParameters: the pair guarded by the calibration mutex
(sct_calibration.c lines 18-19), modelled under uncontended access. -/
structure CalParams where
  bias : ℚ
  scale : ℚ
deriving DecidableEq

/-- Response status of process_udp_command for the modelled commands. -/
inductive CmdResponse where
  | success
  | invalidRange
deriving DecidableEq

/-- The calibration-parameter-writing commands of process_udp_command.
`scaleCal` and `zeroCal` carry the ADC ticks their sampling loops read. -/
inductive Command where
  | manualCal (bias scale : ℚ)
  | setBias (v : ℚ)
  | setScale (v : ℚ)
  | scaleCal (known_amps : ℚ) (ticks : List (Option ℚ))
  | zeroCal (ticks : List (Option ℚ))
  | resetCal
deriving DecidableEq

/-- auto_calibrate_bias_voltage (sct_calibration.c lines 616-646): average
the raw ADC readings of the successfully read ticks; commit the new bias
only when more than 50 of them were valid. -/
def auto_calibrate_bias_voltage (bias : ℚ) (ticks : List (Option ℚ)) : ℚ :=
  let valid := ticks.filterMap id
  if valid.length > 50 then
    adc_to_voltage (valid.sum / (valid.length : ℚ))
  else bias

/-- process_udp_command restricted to the calibration parameters
(udp_receiver.c lines 181-196 MANUAL_CAL, 300-316 SET_BIAS/SET_SCALE,
176-179 SCALE_CAL, 172-174 ZERO_CAL, 198-200 RESET_CAL).  MANUAL_CAL
stores both values unchecked; SET_BIAS accepts [0.1, 3.0]; SET_SCALE accepts
[1.0, 1000.0]; out-of-range values answer INVALID_RANGE and change
nothing. -/
def process_udp_command (now : ℕ) (cmd : Command) (p : CalParams) :
    CalParams × CmdResponse :=
  match cmd with
  | .manualCal b s => (⟨b, s⟩, .success)
  | .setBias v =>
    if 1 / 10 ≤ v ∧ v ≤ 3 then ({ p with bias := v }, .success)
    else (p, .invalidRange)
  | .setScale v =>
    if 1 ≤ v ∧ v ≤ 1000 then ({ p with scale := v }, .success)
    else (p, .invalidRange)
  | .scaleCal k ticks =>
    ({ p with scale := (calibrate_with_known_load now p.bias p.scale k ticks).1 },
     .success)
  | .zeroCal ticks =>
    ({ p with bias := auto_calibrate_bias_voltage p.bias ticks }, .success)
  | .resetCal => (⟨165 / 100, 200⟩, .success)

/-! ### Specification propositions used by the claim theorems -/

/-- One detector step judges the (updated) window stable, and transitions
Idle → StableStart recording the mean and invoking recognition on it,
exactly when the window statistics pass the stability test. -/
def idle_to_stable_start_iff (now : ℕ) (r : ℚ) (st : AutoCalState) : Prop :=
  ((process_current_for_auto_calibration now r st).1.in_stable_period = true ∧
   (process_current_for_auto_calibration now r st).1.stable_load_value =
     history_mean (update_history r st).current_history ∧
   (process_current_for_auto_calibration now r st).2.recognize_invoked =
     some (history_mean (update_history r st).current_history)) ↔
  stable_window (update_history r st).current_history

/-- One detector step triggers a scale recalibration exactly when the
updated window is stable, the machine is in a stable period that has been
held beyond DEVICE_STABLE_TIME_MS, and the recalibration interval has
elapsed; any triggered recalibration uses the recorded stable value and
resets the machine to Idle. -/
def scale_recal_iff (now : ℕ) (r : ℚ) (st : AutoCalState) : Prop :=
  ((process_current_for_auto_calibration now r st).2.scale_cal_invoked ≠ none ↔
    (stable_window (update_history r st).current_history ∧
     st.in_stable_period = true ∧
     now - st.stable_load_start > DEVICE_STABLE_TIME_MS ∧
     now - st.last_scale_calibration > AUTO_CAL_ZERO_INTERVAL_MS)) ∧
  ((process_current_for_auto_calibration now r st).2.scale_cal_invoked ≠ none →
    (process_current_for_auto_calibration now r st).2.scale_cal_invoked =
      some st.stable_load_value ∧
    (process_current_for_auto_calibration now r st).1.in_stable_period = false)

/-- The remaining transitions of the stability state machine on an evaluated
window: a stable window within the holding time keeps the stable period; a
stable window held beyond the holding time with the recalibration interval
not yet elapsed resets to Idle without recalibrating; a stable window while
Idle starts a stable period; an unstable window resets to Idle. -/
def stable_hold_transitions (now : ℕ) (r : ℚ) (st : AutoCalState) : Prop :=
  (stable_window (update_history r st).current_history →
    st.in_stable_period = true →
    ¬ now - st.stable_load_start > DEVICE_STABLE_TIME_MS →
    (process_current_for_auto_calibration now r st).1.in_stable_period = true) ∧
  (stable_window (update_history r st).current_history →
    st.in_stable_period = true →
    now - st.stable_load_start > DEVICE_STABLE_TIME_MS →
    ¬ now - st.last_scale_calibration > AUTO_CAL_ZERO_INTERVAL_MS →
    (process_current_for_auto_calibration now r st).1.in_stable_period = false ∧
    (process_current_for_auto_calibration now r st).2.scale_cal_invoked = none) ∧
  (stable_window (update_history r st).current_history →
    st.in_stable_period = false →
    (process_current_for_auto_calibration now r st).1.in_stable_period = true) ∧
  (¬ stable_window (update_history r st).current_history →
    (process_current_for_auto_calibration now r st).1.in_stable_period = false)

/-! ## Theorems

First: general lemmas about the embedded operations, shared by the claim
theorems below. -/

/-- Branch lemma: a near-zero reading only bumps the zero counter. -/
theorem continuous_zero_branch (now : ℕ) (r : ℚ) (st : AutoCalState)
    (h1 : r < AUTO_CAL_ZERO_THRESHOLD) :
    continuous_auto_calibration now r st =
      ({ st with consecutive_zero_readings := st.consecutive_zero_readings + 1 },
       ⟨none, none⟩) := by
  unfold continuous_auto_calibration
  rw [if_pos h1]

/-- Branch lemma: before the ring has filled, a non-zero reading only resets
the zero counter. -/
theorem continuous_not_full (now : ℕ) (r : ℚ) (st : AutoCalState)
    (h1 : ¬ r < AUTO_CAL_ZERO_THRESHOLD) (h2 : st.history_full = false) :
    continuous_auto_calibration now r st =
      ({ st with consecutive_zero_readings := 0 }, ⟨none, none⟩) := by
  unfold continuous_auto_calibration
  rw [if_neg h1]
  simp [h2]

/-- Branch lemma: first stable window while Idle starts the stable period,
records the mean as stable value and invokes device recognition on it. -/
theorem continuous_stable_start (now : ℕ) (r : ℚ) (st : AutoCalState)
    (h1 : ¬ r < AUTO_CAL_ZERO_THRESHOLD) (h2 : st.history_full = true)
    (h3 : stable_window st.current_history) (h4 : st.in_stable_period = false) :
    continuous_auto_calibration now r st =
      ({ st with consecutive_zero_readings := 0,
                 stable_load_start := now,
                 stable_load_value := history_mean st.current_history,
                 in_stable_period := true },
       ⟨some (history_mean st.current_history), none⟩) := by
  unfold continuous_auto_calibration
  rw [if_neg h1]
  simp [h2, h3.1, h3.2.1, h3.2.2, h4]

/-- Branch lemma: while stable and within DEVICE_STABLE_TIME_MS the stable
period continues unchanged. -/
theorem continuous_holding (now : ℕ) (r : ℚ) (st : AutoCalState)
    (h1 : ¬ r < AUTO_CAL_ZERO_THRESHOLD) (h2 : st.history_full = true)
    (h3 : stable_window st.current_history) (h4 : st.in_stable_period = true)
    (h5 : ¬ now - st.stable_load_start > DEVICE_STABLE_TIME_MS) :
    continuous_auto_calibration now r st =
      ({ st with consecutive_zero_readings := 0 }, ⟨none, none⟩) := by
  unfold continuous_auto_calibration
  rw [if_neg h1]
  simp [h2, h3.1, h3.2.1, h3.2.2, h4, h5]

/-- Branch lemma: once held stable beyond DEVICE_STABLE_TIME_MS but with the
recalibration interval not yet elapsed, the machine resets to Idle without
triggering a recalibration. -/
theorem continuous_expired_no_recal (now : ℕ) (r : ℚ) (st : AutoCalState)
    (h1 : ¬ r < AUTO_CAL_ZERO_THRESHOLD) (h2 : st.history_full = true)
    (h3 : stable_window st.current_history) (h4 : st.in_stable_period = true)
    (h5 : now - st.stable_load_start > DEVICE_STABLE_TIME_MS)
    (h6 : ¬ now - st.last_scale_calibration > AUTO_CAL_ZERO_INTERVAL_MS) :
    continuous_auto_calibration now r st =
      ({ st with consecutive_zero_readings := 0, in_stable_period := false },
       ⟨none, none⟩) := by
  unfold continuous_auto_calibration
  rw [if_neg h1]
  simp [h2, h3.1, h3.2.1, h3.2.2, h4, h5, h6]

/-- Branch lemma: held stable beyond DEVICE_STABLE_TIME_MS with the
recalibration interval elapsed: trigger the scale recalibration with the
recorded stable value and reset to Idle. -/
theorem continuous_trigger (now : ℕ) (r : ℚ) (st : AutoCalState)
    (h1 : ¬ r < AUTO_CAL_ZERO_THRESHOLD) (h2 : st.history_full = true)
    (h3 : stable_window st.current_history) (h4 : st.in_stable_period = true)
    (h5 : now - st.stable_load_start > DEVICE_STABLE_TIME_MS)
    (h6 : now - st.last_scale_calibration > AUTO_CAL_ZERO_INTERVAL_MS) :
    continuous_auto_calibration now r st =
      ({ st with consecutive_zero_readings := 0,
                 last_scale_calibration := now, in_stable_period := false },
       ⟨none, some st.stable_load_value⟩) := by
  unfold continuous_auto_calibration
  rw [if_neg h1]
  simp [h2, h3.1, h3.2.1, h3.2.2, h4, h5, h6]

/-- Branch lemma: a window evaluated as not stable resets the machine to
Idle. -/
theorem continuous_not_stable (now : ℕ) (r : ℚ) (st : AutoCalState)
    (h1 : ¬ r < AUTO_CAL_ZERO_THRESHOLD) (h2 : st.history_full = true)
    (h3 : ¬ stable_window st.current_history) :
    continuous_auto_calibration now r st =
      ({ st with consecutive_zero_readings := 0, in_stable_period := false },
       ⟨none, none⟩) := by
  unfold continuous_auto_calibration
  rw [if_neg h1]
  simp [h2, h3]


theorem not_three_lt_threshold : ¬ (3 : ℚ) < AUTO_CAL_ZERO_THRESHOLD := by
  norm_num [AUTO_CAL_ZERO_THRESHOLD]

theorem mean_replicate_three : history_mean (List.replicate 50 (3 : ℚ)) = 3 := by
  simp [history_mean, List.sum_replicate, HISTORY_SIZE]
  norm_num

theorem variance_replicate_three :
    history_variance (List.replicate 50 (3 : ℚ)) = 0 := by
  unfold history_variance
  rw [mean_replicate_three, List.map_replicate]
  norm_num [List.sum_replicate]

theorem stable_replicate_three : stable_window (List.replicate 50 (3 : ℚ)) := by
  refine ⟨?_, ?_, ?_⟩
  · rw [variance_replicate_three]; norm_num [AUTO_CAL_VARIANCE_THRESHOLD]
  · rw [mean_replicate_three]; norm_num [AUTO_CAL_MIN_CURRENT]
  · rw [mean_replicate_three]; norm_num [AUTO_CAL_MAX_CURRENT]

theorem set_mid_replicate (m k : ℕ) :
    (List.replicate m (3 : ℚ) ++ List.replicate (k + 1) 0).set m 3 =
      List.replicate (m + 1) 3 ++ List.replicate k 0 := by
  rw [List.set_append_right _ _ (by simp)]
  rw [List.length_replicate, Nat.sub_self, List.replicate_succ, List.set_cons_zero]
  rw [List.append_cons, ← List.replicate_succ']

theorem feed_lt_fifty : ∀ n, n ≤ 49 →
    feed_constant_three n =
      ⟨List.replicate n 3 ++ List.replicate (50 - n) 0, n, false, 0, false, 0, 0, 0⟩ := by
  intro n
  induction n with
  | zero =>
    intro _
    show initState = _
    simp only [initState, List.replicate, List.nil_append, Nat.sub_zero, HISTORY_SIZE]
  | succ m ih =>
    intro h
    rw [feed_constant_three, ih (by omega)]
    rw [process_current_for_auto_calibration]
    have h50 : 50 - m = (50 - (m + 1)) + 1 := by omega
    have hmod : (m + 1) % HISTORY_SIZE = m + 1 :=
      Nat.mod_eq_of_lt (by unfold HISTORY_SIZE; omega)
    have hset : (List.replicate m (3 : ℚ) ++ List.replicate (50 - m) 0).set m 3 =
        List.replicate (m + 1) 3 ++ List.replicate (50 - (m + 1)) 0 := by
      rw [h50]; exact set_mid_replicate m (50 - (m + 1))
    have hupd : update_history 3
        (⟨List.replicate m 3 ++ List.replicate (50 - m) 0,
          m, false, 0, false, 0, 0, 0⟩ : AutoCalState) =
        ⟨List.replicate (m + 1) 3 ++ List.replicate (50 - (m + 1)) 0,
         m + 1, false, 0, false, 0, 0, 0⟩ := by
      rw [update_history]
      show AutoCalState.mk
          ((List.replicate m (3 : ℚ) ++ List.replicate (50 - m) (0 : ℚ)).set m (3 : ℚ))
          ((m + 1) % HISTORY_SIZE)
          (if (m + 1) % HISTORY_SIZE = 0 then true else false) 0 false 0 0 0 = _
      rw [hset, hmod, if_neg (Nat.succ_ne_zero m)]
    rw [hupd]
    rw [continuous_not_full _ _ _ not_three_lt_threshold rfl]

theorem feed_fifty_step :
    process_current_for_auto_calibration 0 3 (feed_constant_three 49) =
      (⟨List.replicate 50 3, 0, true, 0, true, 0, 3, 0⟩, ⟨some 3, none⟩) := by
  rw [feed_lt_fifty 49 (by omega)]
  rw [process_current_for_auto_calibration]
  have hset : (List.replicate 49 (3 : ℚ) ++ List.replicate (50 - 49) 0).set 49 3 =
      List.replicate 50 3 := by
    have h1 : (50 : ℕ) - 49 = 0 + 1 := rfl
    rw [h1, set_mid_replicate 49 0]
    simp only [List.replicate_zero, List.append_nil]
  have hupd : update_history 3
      (⟨List.replicate 49 3 ++ List.replicate (50 - 49) 0,
        49, false, 0, false, 0, 0, 0⟩ : AutoCalState) =
      ⟨List.replicate 50 3, 0, true, 0, false, 0, 0, 0⟩ := by
    rw [update_history]
    show AutoCalState.mk
        ((List.replicate 49 (3 : ℚ) ++ List.replicate (50 - 49) (0 : ℚ)).set 49 (3 : ℚ))
        ((49 + 1) % HISTORY_SIZE)
        (if (49 + 1) % HISTORY_SIZE = 0 then true else false) 0 false 0 0 0 = _
    rw [hset]
    norm_num [HISTORY_SIZE]
  rw [hupd]
  rw [continuous_stable_start 0 3 ⟨List.replicate 50 3, 0, true, 0, false, 0, 0, 0⟩
    not_three_lt_threshold rfl stable_replicate_three rfl]
  rw [mean_replicate_three]

theorem feed_fifty :
    feed_constant_three 50 =
      ⟨List.replicate 50 3, 0, true, 0, true, 0, 3, 0⟩ := by
  rw [feed_constant_three, feed_fifty_step]

theorem step_const_after_full (i : ℕ) :
    process_current_for_auto_calibration 0 3
      ⟨List.replicate 50 3, i, true, 0, true, 0, 3, 0⟩ =
      (⟨List.replicate 50 3, (i + 1) % 50, true, 0, true, 0, 3, 0⟩, ⟨none, none⟩) := by
  rw [process_current_for_auto_calibration]
  have hupd : update_history 3
      (⟨List.replicate 50 3, i, true, 0, true, 0, 3, 0⟩ : AutoCalState) =
      ⟨List.replicate 50 3, (i + 1) % 50, true, 0, true, 0, 3, 0⟩ := by
    rw [update_history]
    show AutoCalState.mk ((List.replicate 50 (3 : ℚ)).set i (3 : ℚ))
        ((i + 1) % HISTORY_SIZE)
        (if (i + 1) % HISTORY_SIZE = 0 then true else true) 0 true 0 3 0 = _
    rw [List.set_replicate_self, ite_self]
    rfl
  rw [hupd]
  rw [continuous_holding 0 3 ⟨List.replicate 50 3, (i + 1) % 50, true, 0, true, 0, 3, 0⟩
    not_three_lt_threshold rfl stable_replicate_three rfl
    (by norm_num [DEVICE_STABLE_TIME_MS])]

theorem feed_ge_fifty : ∀ k,
    feed_constant_three (50 + k) =
      ⟨List.replicate 50 3, (50 + k) % 50, true, 0, true, 0, 3, 0⟩ := by
  intro k
  induction k with
  | zero => rw [feed_fifty]
  | succ m ih =>
    have h1 : 50 + (m + 1) = (50 + m) + 1 := rfl
    rw [h1, feed_constant_three, ih, step_const_after_full]
    show (⟨List.replicate 50 (3 : ℚ), ((50 + m) % 50 + 1) % 50,
        true, 0, true, 0, 3, 0⟩ : AutoCalState) = _
    have h2 : ((50 + m) % 50 + 1) % 50 = (50 + m + 1) % 50 := by omega
    rw [h2]


/-- General half of claim C1, as a standalone lemma reused by the claim
theorem: under a non-near-zero reading, a full (updated) ring and an Idle
machine, the Idle → StableStart transition (with its recorded value and
recognition call) happens exactly when the updated window is stable. -/
theorem idle_to_stable_start (st : AutoCalState) (now : ℕ) (r : ℚ)
    (h1 : AUTO_CAL_ZERO_THRESHOLD ≤ r)
    (h2 : (update_history r st).history_full = true)
    (h3 : st.in_stable_period = false) :
    idle_to_stable_start_iff now r st := by
  unfold idle_to_stable_start_iff
  rw [process_current_for_auto_calibration]
  have hlt : ¬ r < AUTO_CAL_ZERO_THRESHOLD := not_lt.mpr h1
  have h3u : (update_history r st).in_stable_period = false := h3
  by_cases hs : stable_window (update_history r st).current_history
  · rw [continuous_stable_start now r (update_history r st) hlt h2 hs h3u]
    simpa using hs
  · rw [continuous_not_stable now r (update_history r st) hlt h2 hs]
    simp only [iff_iff_implies_and_implies]
    constructor
    · intro hcon
      exact absurd hcon.1 (by simp)
    · intro hcon
      exact absurd hcon hs

/-- C1: for every reading at or above the 0.05 A near-zero threshold, once
the 50-entry history ring has been filled, the detector judges the updated
window stable exactly when its population variance is below 0.1 and its
mean lies in [0.5, 15], transitioning Idle → StableStart, recording
stable_value = mean and invoking device recognition with it; feeding the
constant 3.0 for 50 or more insertions yields window variance 0, and the
50th insertion performs that transition with mean 3. -/
theorem C1_stability_detector (st : AutoCalState) (now : ℕ) (r : ℚ) (n : ℕ)
    (h1 : AUTO_CAL_ZERO_THRESHOLD ≤ r)
    (h2 : (update_history r st).history_full = true)
    (h3 : st.in_stable_period = false)
    (h4 : 50 ≤ n) :
    idle_to_stable_start_iff now r st ∧
    AUTO_CAL_ZERO_THRESHOLD = 5 / 100 ∧
    AUTO_CAL_VARIANCE_THRESHOLD = 1 / 10 ∧
    AUTO_CAL_MIN_CURRENT = 1 / 2 ∧
    AUTO_CAL_MAX_CURRENT = 15 ∧
    history_variance (feed_constant_three n).current_history = 0 ∧
    (feed_constant_three 49).in_stable_period = false ∧
    (feed_constant_three 50).in_stable_period = true ∧
    (feed_constant_three 50).stable_load_value =
      history_mean (feed_constant_three 50).current_history ∧
    history_mean (feed_constant_three 50).current_history = 3 ∧
    (process_current_for_auto_calibration 0 3
        (feed_constant_three 49)).2.recognize_invoked = some 3 := by
  refine ⟨idle_to_stable_start st now r h1 h2 h3, rfl, rfl, rfl, rfl, ?_, ?_, ?_, ?_, ?_, ?_⟩
  · have hmain := feed_ge_fifty (n - 50)
    rw [show 50 + (n - 50) = n by omega] at hmain
    rw [hmain]
    exact variance_replicate_three
  · rw [feed_lt_fifty 49 (by omega)]
  · rw [feed_fifty]
  · rw [feed_fifty, mean_replicate_three]
  · rw [feed_fifty, mean_replicate_three]
  · rw [feed_fifty_step]

/-- Witness for C1_stability_detector at a concrete full-ring Idle state. -/
theorem C1_stability_detector_witness :
    (AUTO_CAL_ZERO_THRESHOLD ≤ (3 : ℚ) ∧
     (update_history 3 ⟨List.replicate 50 3, 0, true, 0, false, 0, 0, 0⟩).history_full
       = true ∧
     (⟨List.replicate 50 3, 0, true, 0, false, 0, 0, 0⟩ :
        AutoCalState).in_stable_period = false ∧
     50 ≤ 50) ∧
    idle_to_stable_start_iff 0 3 ⟨List.replicate 50 3, 0, true, 0, false, 0, 0, 0⟩ ∧
    history_variance (feed_constant_three 50).current_history = 0 := by
  have hthr : AUTO_CAL_ZERO_THRESHOLD ≤ (3 : ℚ) := by
    norm_num [AUTO_CAL_ZERO_THRESHOLD]
  have hfull : (update_history 3
      ⟨List.replicate 50 3, 0, true, 0, false, 0, 0, 0⟩).history_full = true := rfl
  have hmain := C1_stability_detector
    ⟨List.replicate 50 3, 0, true, 0, false, 0, 0, 0⟩ 0 3 50 hthr hfull rfl (by omega)
  exact ⟨⟨hthr, hfull, rfl, by omega⟩, hmain.1, hmain.2.2.2.2.2.1⟩


/-- C4 (amended): on every evaluated window (reading at or above the
near-zero threshold, ring full), a scale recalibration is triggered with
the recorded stable value and the machine reset to Idle exactly when the
window is stable, the machine was holding a stable period beyond
DEVICE_STABLE_TIME (3 min) and the last scale calibration is more than the
recalibration interval (30 min) ago; a stable window within the holding
time keeps the stable period, a stable window held beyond the holding time
with the interval not yet elapsed resets to Idle without recalibrating,
and an unstable window always resets to Idle. -/
theorem C4_stable_hold_recalibration (st : AutoCalState) (now : ℕ) (r : ℚ)
    (h1 : AUTO_CAL_ZERO_THRESHOLD ≤ r)
    (h2 : (update_history r st).history_full = true) :
    scale_recal_iff now r st ∧
    stable_hold_transitions now r st ∧
    DEVICE_STABLE_TIME_MS = 3 * 60 * 1000 ∧
    AUTO_CAL_ZERO_INTERVAL_MS = 30 * 60 * 1000 := by
  have hlt : ¬ r < AUTO_CAL_ZERO_THRESHOLD := not_lt.mpr h1
  set u := update_history r st with hu
  have hus : u.in_stable_period = st.in_stable_period := rfl
  have hustart : u.stable_load_start = st.stable_load_start := rfl
  have hulast : u.last_scale_calibration = st.last_scale_calibration := rfl
  have huval : u.stable_load_value = st.stable_load_value := rfl
  refine ⟨⟨?_, ?_⟩, ⟨?_, ?_, ?_, ?_⟩, rfl, rfl⟩
  · -- trigger iff
    rw [process_current_for_auto_calibration, ← hu]
    constructor
    · intro htrig
      by_cases hs : stable_window u.current_history
      · by_cases hins : st.in_stable_period = true
        · by_cases hheld : now - st.stable_load_start > DEVICE_STABLE_TIME_MS
          · by_cases hint : now - st.last_scale_calibration > AUTO_CAL_ZERO_INTERVAL_MS
            · exact ⟨hs, hins, hheld, hint⟩
            · rw [continuous_expired_no_recal now r u hlt h2 hs (hus.trans hins)
                (hustart ▸ hheld) (hulast ▸ hint)] at htrig
              exact absurd rfl htrig
          · rw [continuous_holding now r u hlt h2 hs (hus.trans hins)
              (hustart ▸ hheld)] at htrig
            exact absurd rfl htrig
        · have hins2 : u.in_stable_period = false := by
            rw [hus]; exact Bool.not_eq_true _ ▸ (Bool.eq_false_iff.mpr hins)
          rw [continuous_stable_start now r u hlt h2 hs hins2] at htrig
          exact absurd rfl htrig
      · rw [continuous_not_stable now r u hlt h2 hs] at htrig
        exact absurd rfl htrig
    · rintro ⟨hs, hins, hheld, hint⟩
      rw [continuous_trigger now r u hlt h2 hs (hus.trans hins)
        (hustart ▸ hheld) (hulast ▸ hint)]
      simp
  · -- triggered value and reset
    rw [process_current_for_auto_calibration, ← hu]
    intro htrig
    by_cases hs : stable_window u.current_history
    · by_cases hins : u.in_stable_period = true
      · by_cases hheld : now - u.stable_load_start > DEVICE_STABLE_TIME_MS
        · by_cases hint : now - u.last_scale_calibration > AUTO_CAL_ZERO_INTERVAL_MS
          · rw [continuous_trigger now r u hlt h2 hs hins hheld hint]
            exact ⟨huval ▸ rfl, rfl⟩
          · rw [continuous_expired_no_recal now r u hlt h2 hs hins hheld hint] at htrig
            exact absurd rfl htrig
        · rw [continuous_holding now r u hlt h2 hs hins hheld] at htrig
          exact absurd rfl htrig
      · have hins2 : u.in_stable_period = false := Bool.eq_false_iff.mpr hins
        rw [continuous_stable_start now r u hlt h2 hs hins2] at htrig
        exact absurd rfl htrig
    · rw [continuous_not_stable now r u hlt h2 hs] at htrig
      exact absurd rfl htrig
  · -- stable, holding, within time: remains
    intro hs hins hheld
    rw [process_current_for_auto_calibration, ← hu]
    rw [continuous_holding now r u hlt h2 hs (hus.trans hins) (hustart ▸ hheld)]
    exact hus.trans hins
  · -- stable, holding, held beyond time, interval not elapsed: Idle, no recal
    intro hs hins hheld hint
    rw [process_current_for_auto_calibration, ← hu]
    rw [continuous_expired_no_recal now r u hlt h2 hs (hus.trans hins)
      (hustart ▸ hheld) (hulast ▸ hint)]
    exact ⟨rfl, rfl⟩
  · -- stable, Idle: StableStart
    intro hs hins
    rw [process_current_for_auto_calibration, ← hu]
    rw [continuous_stable_start now r u hlt h2 hs (hus.trans hins)]
  · -- unstable: Idle
    intro hs
    rw [process_current_for_auto_calibration, ← hu]
    rw [continuous_not_stable now r u hlt h2 hs]

/-- Helper: the history update for a full all-3.0 ring at index 1. -/
theorem update_history_ce :
    update_history 3 ⟨List.replicate 50 3, 1, true, 0, true, 0, 3, 0⟩ =
      ⟨List.replicate 50 3, 2, true, 0, true, 0, 3, 0⟩ := by
  rw [update_history]
  show AutoCalState.mk ((List.replicate 50 (3 : ℚ)).set 1 (3 : ℚ))
      ((1 + 1) % HISTORY_SIZE)
      (if (1 + 1) % HISTORY_SIZE = 0 then true else true) 0 true 0 3 0 = _
  rw [List.set_replicate_self, ite_self]
  rfl

/-- Counterexample to C4 as stated: a window that stays stable while the
machine has been holding beyond DEVICE_STABLE_TIME, with the recalibration
interval not yet elapsed, does NOT remain in StableStart/StableHolding: the
machine resets to Idle without triggering a recalibration. -/
theorem C4_counterexample :
    stable_window
      (update_history 3
        ⟨List.replicate 50 3, 1, true, 0, true, 0, 3, 0⟩).current_history ∧
    (⟨List.replicate 50 3, 1, true, 0, true, 0, 3, 0⟩ :
        AutoCalState).in_stable_period = true ∧
    200000 -
      (⟨List.replicate 50 3, 1, true, 0, true, 0, 3, 0⟩ :
        AutoCalState).stable_load_start > DEVICE_STABLE_TIME_MS ∧
    ¬ (200000 -
        (⟨List.replicate 50 3, 1, true, 0, true, 0, 3, 0⟩ :
          AutoCalState).last_scale_calibration > AUTO_CAL_ZERO_INTERVAL_MS) ∧
    (process_current_for_auto_calibration 200000 3
        ⟨List.replicate 50 3, 1, true, 0, true, 0, 3, 0⟩).1.in_stable_period
      = false ∧
    (process_current_for_auto_calibration 200000 3
        ⟨List.replicate 50 3, 1, true, 0, true, 0, 3, 0⟩).2.scale_cal_invoked
      = none := by
  have hstep : process_current_for_auto_calibration 200000 3
      ⟨List.replicate 50 3, 1, true, 0, true, 0, 3, 0⟩ =
      (⟨List.replicate 50 3, 2, true, 0, false, 0, 3, 0⟩, ⟨none, none⟩) := by
    rw [process_current_for_auto_calibration, update_history_ce]
    rw [continuous_expired_no_recal 200000 3
      ⟨List.replicate 50 3, 2, true, 0, true, 0, 3, 0⟩
      not_three_lt_threshold rfl stable_replicate_three rfl
      (by norm_num [DEVICE_STABLE_TIME_MS])
      (by norm_num [AUTO_CAL_ZERO_INTERVAL_MS])]
  refine ⟨?_, rfl, by norm_num [DEVICE_STABLE_TIME_MS],
    by norm_num [AUTO_CAL_ZERO_INTERVAL_MS], ?_, ?_⟩
  · rw [update_history_ce]
    exact stable_replicate_three
  · rw [hstep]
  · rw [hstep]

/-- Witness for C4_stable_hold_recalibration at a concrete holding state. -/
theorem C4_stable_hold_recalibration_witness :
    (AUTO_CAL_ZERO_THRESHOLD ≤ (3 : ℚ) ∧
     (update_history 3
        ⟨List.replicate 50 3, 1, true, 0, true, 0, 3, 0⟩).history_full = true) ∧
    scale_recal_iff 200000 3 ⟨List.replicate 50 3, 1, true, 0, true, 0, 3, 0⟩ ∧
    stable_hold_transitions 200000 3
      ⟨List.replicate 50 3, 1, true, 0, true, 0, 3, 0⟩ := by
  have hthr : AUTO_CAL_ZERO_THRESHOLD ≤ (3 : ℚ) := by
    norm_num [AUTO_CAL_ZERO_THRESHOLD]
  have hfull : (update_history 3
      ⟨List.replicate 50 3, 1, true, 0, true, 0, 3, 0⟩).history_full = true := by
    rw [update_history_ce]
  have hmain := C4_stable_hold_recalibration
    ⟨List.replicate 50 3, 1, true, 0, true, 0, 3, 0⟩ 200000 3 hthr hfull
  exact ⟨⟨hthr, hfull⟩, hmain.1, hmain.2.1⟩


/-- Catalog lookup: 5.5 A falls in the Hair Dryer Low Setting range, and no
earlier profile contains it. -/
theorem recognize_hair_dryer_low :
    recognize_device (11 / 2) =
      some ⟨4, 6, 5, "Hair Dryer Low Setting", 15 / 10⟩ := by
  unfold recognize_device known_devices
  rw [List.find?_cons_of_neg _ (by simp [device_matches]; norm_num),
      List.find?_cons_of_neg _ (by simp [device_matches]; norm_num),
      List.find?_cons_of_pos _ (by simp [device_matches]; norm_num)]

/-- Catalog lookup: 5.0 A also falls in the Hair Dryer Low Setting range. -/
theorem recognize_five :
    recognize_device 5 =
      some ⟨4, 6, 5, "Hair Dryer Low Setting", 15 / 10⟩ := by
  unfold recognize_device known_devices
  rw [List.find?_cons_of_neg _ (by simp [device_matches]; norm_num),
      List.find?_cons_of_neg _ (by simp [device_matches]; norm_num),
      List.find?_cons_of_pos _ (by simp [device_matches]; norm_num)]

/-- Match quality of 5.5 A against the Hair Dryer Low profile. -/
theorem match_quality_hair_dryer_low :
    match_quality (11 / 2) ⟨4, 6, 5, "Hair Dryer Low Setting", 15 / 10⟩ = 3 / 4 := by
  unfold match_quality
  rw [show |(11 / 2 : ℚ) - 5| = 1 / 2 by rw [abs_of_pos] <;> norm_num]
  norm_num

/-- Match quality of 5.0 A against the Hair Dryer Low profile. -/
theorem match_quality_five :
    match_quality 5 ⟨4, 6, 5, "Hair Dryer Low Setting", 15 / 10⟩ = 1 := by
  unfold match_quality
  norm_num

/-- Confidence of 5.0 A at sensitivity 0.7. -/
theorem confidence_five :
    recognition_confidence 5 (7 / 10)
      ⟨4, 6, 5, "Hair Dryer Low Setting", 15 / 10⟩ = 21 / 20 := by
  unfold recognition_confidence
  rw [match_quality_five]
  norm_num

/-- Confidence of 5.5 A at sensitivity 0.7. -/
theorem confidence_five_five :
    recognition_confidence (11 / 2) (7 / 10)
      ⟨4, 6, 5, "Hair Dryer Low Setting", 15 / 10⟩ = 63 / 80 := by
  unfold recognition_confidence
  rw [match_quality_hair_dryer_low]
  norm_num

/-- C6: recognize_device scans the static 10-entry catalog in declaration
order, returning the first profile whose closed range contains the query and
none when no range contains it; recognize_device(5.5) returns the Hair Dryer
Low Setting profile with match quality 0.75. -/
theorem C6_first_match_catalog (x : ℚ) (d : DeviceProfile) :
    (recognize_device x = some d ↔
      (d.min_current ≤ x ∧ x ≤ d.max_current) ∧
      ∃ before after, known_devices = before ++ d :: after ∧
        ∀ e ∈ before, ¬ (e.min_current ≤ x ∧ x ≤ e.max_current)) ∧
    (recognize_device x = none ↔
      ∀ e ∈ known_devices, ¬ (e.min_current ≤ x ∧ x ≤ e.max_current)) ∧
    known_devices.length = 10 ∧
    recognize_device (11 / 2) =
      some ⟨4, 6, 5, "Hair Dryer Low Setting", 15 / 10⟩ ∧
    match_quality (11 / 2) ⟨4, 6, 5, "Hair Dryer Low Setting", 15 / 10⟩ = 3 / 4 := by
  refine ⟨?_, ?_, rfl, recognize_hair_dryer_low, match_quality_hair_dryer_low⟩
  · rw [recognize_device, List.find?_eq_some]
    simp only [device_matches, decide_eq_true_eq, Bool.not_eq_true',
      decide_eq_false_iff_not]
  · rw [recognize_device, List.find?_eq_none]
    simp only [device_matches, decide_eq_true_eq]

/-- Witness for C6_first_match_catalog (no real hypotheses, but the iff
halves are exercised at concrete inputs). -/
theorem C6_first_match_catalog_witness :
    recognize_device (11 / 2) =
      some ⟨4, 6, 5, "Hair Dryer Low Setting", 15 / 10⟩ ∧
    match_quality (11 / 2) ⟨4, 6, 5, "Hair Dryer Low Setting", 15 / 10⟩ = 3 / 4 := by
  have hmain := C6_first_match_catalog (11 / 2)
    ⟨4, 6, 5, "Hair Dryer Low Setting", 15 / 10⟩
  exact ⟨hmain.2.2.2.1, hmain.2.2.2.2⟩

/-- C2: on a catalog match the confidence is
(1 - |measured - typical| / (max - min)) * confidence_boost * sensitivity;
the calibration trigger with the success counter increment happens exactly
when it exceeds 0.9, the failure counter increments otherwise, and a value
with no match changes nothing; at sensitivity 0.7 and boost 1.5, 5.0 A gives
confidence 1.05 and triggers, 5.5 A gives 0.7875 and does not. -/
theorem C2_confidence_gating (m sens : ℚ) (succ fail : ℕ) (d : DeviceProfile) :
    (recognize_device m = some d →
      recognition_confidence m sens d =
        (1 - |m - d.typical_current| / (d.max_current - d.min_current)) *
          d.confidence_boost * sens ∧
      (recognition_confidence m sens d > 9 / 10 →
        auto_recognize_and_calibrate m sens succ fail =
          ⟨some d.typical_current, succ + 1, fail⟩) ∧
      (¬ recognition_confidence m sens d > 9 / 10 →
        auto_recognize_and_calibrate m sens succ fail =
          ⟨none, succ, fail + 1⟩)) ∧
    (recognize_device m = none →
      auto_recognize_and_calibrate m sens succ fail = ⟨none, succ, fail⟩) ∧
    auto_recognize_and_calibrate 5 (7 / 10) succ fail =
      ⟨some 5, succ + 1, fail⟩ ∧
    recognition_confidence 5 (7 / 10)
      ⟨4, 6, 5, "Hair Dryer Low Setting", 15 / 10⟩ = 21 / 20 ∧
    auto_recognize_and_calibrate (11 / 2) (7 / 10) succ fail =
      ⟨none, succ, fail + 1⟩ ∧
    recognition_confidence (11 / 2) (7 / 10)
      ⟨4, 6, 5, "Hair Dryer Low Setting", 15 / 10⟩ = 63 / 80 := by
  refine ⟨?_, ?_, ?_, confidence_five, ?_, confidence_five_five⟩
  · intro hrec
    refine ⟨rfl, ?_, ?_⟩
    · intro hconf
      simp only [auto_recognize_and_calibrate, hrec]
      rw [if_pos (show recognition_confidence m sens d >
        DEVICE_RECOGNITION_CONFIDENCE from hconf)]
    · intro hconf
      simp only [auto_recognize_and_calibrate, hrec]
      rw [if_neg (show ¬ recognition_confidence m sens d >
        DEVICE_RECOGNITION_CONFIDENCE from hconf)]
  · intro hrec
    simp only [auto_recognize_and_calibrate, hrec]
  · simp only [auto_recognize_and_calibrate, recognize_five]
    rw [if_pos (by rw [confidence_five]; norm_num [DEVICE_RECOGNITION_CONFIDENCE])]
  · simp only [auto_recognize_and_calibrate, recognize_hair_dryer_low]
    rw [if_neg (by rw [confidence_five_five]; norm_num [DEVICE_RECOGNITION_CONFIDENCE])]

/-- Witness for C2_confidence_gating at the example inputs of the claim. -/
theorem C2_confidence_gating_witness :
    recognize_device 5 = some ⟨4, 6, 5, "Hair Dryer Low Setting", 15 / 10⟩ ∧
    recognition_confidence 5 (7 / 10)
      ⟨4, 6, 5, "Hair Dryer Low Setting", 15 / 10⟩ > 9 / 10 ∧
    auto_recognize_and_calibrate 5 (7 / 10) 0 0 = ⟨some 5, 1, 0⟩ ∧
    auto_recognize_and_calibrate (11 / 2) (7 / 10) 0 0 = ⟨none, 0, 1⟩ := by
  have hmain := C2_confidence_gating 5 (7 / 10) 0 0
    ⟨4, 6, 5, "Hair Dryer Low Setting", 15 / 10⟩
  have hgt : recognition_confidence 5 (7 / 10)
      ⟨4, 6, 5, "Hair Dryer Low Setting", 15 / 10⟩ > 9 / 10 := by
    rw [confidence_five]; norm_num
  exact ⟨recognize_five, hgt, (hmain.1 recognize_five).2.1 hgt, hmain.2.2.2.2.1⟩


/-- C9 (amended): past the hourly gate, the adaptation raises the
sensitivity by 0.05 exactly when success_rate > 0.8 and sensitivity < 0.9,
lowers it by 0.05 exactly when (otherwise) success_rate < 0.4 and
sensitivity > 0.3, and leaves it unchanged in every other case, with
success_rate defaulting to 0.5 when no recognition attempt was recorded;
the code performs no clamping to [0.3, 0.9]: after an increase the
sensitivity is only guaranteed below 0.95, after a decrease only above
0.25, while the manual override accepts exactly the range [0, 1]. -/
theorem C9_sensitivity_adaptation (now last succ fail : ℕ) (sens v : ℚ)
    (hgate : ¬ now - last < 60 * 60 * 1000) :
    (((adaptive_threshold_adjustment now last succ fail sens).1 = sens + 5 / 100) ↔
      ((if succ + fail > 0 then (succ : ℚ) / ((succ : ℚ) + (fail : ℚ)) else 1 / 2)
          > 8 / 10 ∧ sens < 9 / 10)) ∧
    (((adaptive_threshold_adjustment now last succ fail sens).1 = sens - 5 / 100) ↔
      (¬ ((if succ + fail > 0 then (succ : ℚ) / ((succ : ℚ) + (fail : ℚ)) else 1 / 2)
            > 8 / 10 ∧ sens < 9 / 10) ∧
       ((if succ + fail > 0 then (succ : ℚ) / ((succ : ℚ) + (fail : ℚ)) else 1 / 2)
          < 4 / 10 ∧ sens > 3 / 10))) ∧
    (succ + fail = 0 →
      (adaptive_threshold_adjustment now last succ fail sens).1 = sens) ∧
    ((adaptive_threshold_adjustment now last succ fail sens).1 = sens + 5 / 100 →
      (adaptive_threshold_adjustment now last succ fail sens).1 < 95 / 100) ∧
    ((adaptive_threshold_adjustment now last succ fail sens).1 = sens - 5 / 100 →
      (adaptive_threshold_adjustment now last succ fail sens).1 > 25 / 100) ∧
    (0 ≤ v ∧ v ≤ 1 → set_auto_cal_sensitivity v sens = v) ∧
    (¬ (0 ≤ v ∧ v ≤ 1) → set_auto_cal_sensitivity v sens = sens) := by
  have hne1 : sens ≠ sens + 5 / 100 := by intro h; nlinarith [h]
  have hne2 : sens ≠ sens - 5 / 100 := by intro h; nlinarith [h]
  have hne3 : sens - 5 / 100 ≠ sens + 5 / 100 := by intro h; nlinarith [h]
  simp only [adaptive_threshold_adjustment]
  rw [if_neg hgate]
  set rate : ℚ :=
    (if succ + fail > 0 then (succ : ℚ) / ((succ : ℚ) + (fail : ℚ)) else 1 / 2)
    with hrate
  by_cases hg1 : rate > 8 / 10 ∧ sens < 9 / 10
  · rw [if_pos hg1]
    refine ⟨by simpa using hg1, ?_, ?_, ?_, ?_, ?_, ?_⟩
    · simp only
      constructor
      · intro h; exact absurd h.symm hne3
      · intro h; exact absurd hg1 h.1
    · intro h0
      exfalso
      have : rate = 1 / 2 := by rw [hrate, if_neg (by omega)]
      rw [this] at hg1
      norm_num at hg1
    · intro _; simp only; nlinarith [hg1.2]
    · intro h; exact absurd h.symm hne3
    · intro h; rw [set_auto_cal_sensitivity, if_pos h]
    · intro h; rw [set_auto_cal_sensitivity, if_neg h]
  · rw [if_neg hg1]
    by_cases hg2 : rate < 4 / 10 ∧ sens > 3 / 10
    · rw [if_pos hg2]
      refine ⟨?_, by simp [hg1, hg2], ?_, ?_, ?_, ?_, ?_⟩
      · simp only
        constructor
        · intro h; exact absurd h hne3
        · intro h; exact absurd h hg1
      · intro h0
        exfalso
        have : rate = 1 / 2 := by rw [hrate, if_neg (by omega)]
        rw [this] at hg2
        norm_num at hg2
      · intro h; exact absurd h hne3
      · intro _; simp only; nlinarith [hg2.2]
      · intro h; rw [set_auto_cal_sensitivity, if_pos h]
      · intro h; rw [set_auto_cal_sensitivity, if_neg h]
    · rw [if_neg hg2]
      refine ⟨?_, ?_, fun _ => rfl, ?_, ?_, ?_, ?_⟩
      · simp only
        constructor
        · intro h; exact absurd h hne1
        · intro h; exact absurd h hg1
      · simp only
        constructor
        · intro h; exact absurd h hne2
        · intro h; exact absurd h.2 hg2
      · intro h; exact absurd h hne1
      · intro h; exact absurd h hne2
      · intro h; rw [set_auto_cal_sensitivity, if_pos h]
      · intro h; rw [set_auto_cal_sensitivity, if_neg h]

/-- Counterexample to C9 as stated: the manual override legitimately sets
sensitivity 0.89 (within [0, 1]), and one adjustment with success rate 0.9
raises it to 0.94, outside the claimed clamp range [0.3, 0.9]. -/
theorem C9_counterexample :
    set_auto_cal_sensitivity (89 / 100) (7 / 10) = 89 / 100 ∧
    (adaptive_threshold_adjustment 3600000 0 9 1 (89 / 100)).1 = 94 / 100 ∧
    ¬ ((adaptive_threshold_adjustment 3600000 0 9 1 (89 / 100)).1 ≤ 9 / 10) := by
  have hset : set_auto_cal_sensitivity (89 / 100) (7 / 10) = 89 / 100 := by
    rw [set_auto_cal_sensitivity, if_pos (by norm_num)]
  have hadj : (adaptive_threshold_adjustment 3600000 0 9 1 (89 / 100)).1
      = 94 / 100 := by
    simp only [adaptive_threshold_adjustment]
    rw [if_neg (by norm_num), if_pos (by norm_num)]
    norm_num
  exact ⟨hset, hadj, by rw [hadj]; norm_num⟩

/-- Witness for C9_sensitivity_adaptation at the counterexample inputs. -/
theorem C9_sensitivity_adaptation_witness :
    (¬ (3600000 : ℕ) - 0 < 60 * 60 * 1000) ∧
    ((adaptive_threshold_adjustment 3600000 0 9 1 (89 / 100)).1 =
        89 / 100 + 5 / 100 ↔
      ((if 9 + 1 > 0 then ((9 : ℕ) : ℚ) / (((9 : ℕ) : ℚ) + ((1 : ℕ) : ℚ)) else 1 / 2)
          > 8 / 10 ∧ (89 / 100 : ℚ) < 9 / 10)) ∧
    set_auto_cal_sensitivity (89 / 100) (7 / 10) = 89 / 100 := by
  have hgate : ¬ (3600000 : ℕ) - 0 < 60 * 60 * 1000 := by norm_num
  have hmain := C9_sensitivity_adaptation 3600000 0 9 1 (89 / 100) (89 / 100) hgate
  have hovr := C9_sensitivity_adaptation 3600000 0 9 1 (7 / 10) (89 / 100) hgate
  exact ⟨hgate, hmain.1, hovr.2.2.2.2.2.1 (by norm_num)⟩

/-- C10: SET_BIAS updates the bias exactly for 0.1 ≤ v ≤ 3.0 and SET_SCALE
the scale exactly for 1.0 ≤ v ≤ 1000.0; out-of-range values answer
INVALID_RANGE leaving both parameters unchanged; MANUAL_CAL performs no such
range check and stores both values unconditionally. -/
theorem C10_set_bias_scale_range (now : ℕ) (v : ℚ) (p : CalParams) :
    (1 / 10 ≤ v ∧ v ≤ 3 →
      process_udp_command now (.setBias v) p = ({ p with bias := v }, .success)) ∧
    (¬ (1 / 10 ≤ v ∧ v ≤ 3) →
      process_udp_command now (.setBias v) p = (p, .invalidRange)) ∧
    (1 ≤ v ∧ v ≤ 1000 →
      process_udp_command now (.setScale v) p = ({ p with scale := v }, .success)) ∧
    (¬ (1 ≤ v ∧ v ≤ 1000) →
      process_udp_command now (.setScale v) p = (p, .invalidRange)) ∧
    (∀ b s : ℚ, process_udp_command now (.manualCal b s) p = (⟨b, s⟩, .success)) := by
  refine ⟨?_, ?_, ?_, ?_, fun b s => rfl⟩
  · intro h
    simp only [process_udp_command]
    rw [if_pos h]
  · intro h
    simp only [process_udp_command]
    rw [if_neg h]
  · intro h
    simp only [process_udp_command]
    rw [if_pos h]
  · intro h
    simp only [process_udp_command]
    rw [if_neg h]

/-- Witness for C10_set_bias_scale_range: an in-range SET_BIAS, an
out-of-range SET_BIAS and SET_SCALE, and an unchecked MANUAL_CAL. -/
theorem C10_set_bias_scale_range_witness :
    process_udp_command 0 (.setBias (1 / 5)) ⟨165 / 100, 200⟩ =
      (⟨1 / 5, 200⟩, .success) ∧
    process_udp_command 0 (.setBias 5) ⟨165 / 100, 200⟩ =
      (⟨165 / 100, 200⟩, .invalidRange) ∧
    process_udp_command 0 (.setScale 5000) ⟨165 / 100, 200⟩ =
      (⟨165 / 100, 200⟩, .invalidRange) ∧
    process_udp_command 0 (.manualCal (165 / 100) (-5)) ⟨165 / 100, 200⟩ =
      (⟨165 / 100, -5⟩, .success) := by
  refine ⟨?_, ?_, ?_, ?_⟩
  · exact (C10_set_bias_scale_range 0 (1 / 5) ⟨165 / 100, 200⟩).1 (by norm_num)
  · exact (C10_set_bias_scale_range 0 5 ⟨165 / 100, 200⟩).2.1 (by norm_num)
  · exact (C10_set_bias_scale_range 0 5000 ⟨165 / 100, 200⟩).2.2.2.1 (by norm_num)
  · exact (C10_set_bias_scale_range 0 0 ⟨165 / 100, 200⟩).2.2.2.2 (165 / 100) (-5)



/-- The sampling loop of calibrate_with_known_load accumulates exactly the
sum and the count of the non-negligible AC-voltage magnitudes. -/
theorem calibrate_fold_aux (bias : ℚ) (ticks : List (Option ℚ)) :
    ∀ acc : ℚ × ℕ,
      ticks.foldl
        (fun acc t =>
          match t with
          | some adc =>
            let ac := |adc_to_voltage adc - bias|
            if ac > 1 / 1000 then (acc.1 + ac, acc.2 + 1) else acc
          | none => acc)
        acc =
      (acc.1 + (valid_ac_magnitudes bias ticks).sum,
       acc.2 + (valid_ac_magnitudes bias ticks).length) := by
  induction ticks with
  | nil => intro acc; simp [valid_ac_magnitudes]
  | cons t ts ih =>
    intro acc
    rw [List.foldl_cons]
    cases t with
    | none =>
      rw [ih]
      simp [valid_ac_magnitudes, List.filterMap_cons]
    | some adc =>
      have hval : valid_ac_magnitudes bias (some adc :: ts) =
          if |adc_to_voltage adc - bias| > 1 / 1000
          then |adc_to_voltage adc - bias| :: valid_ac_magnitudes bias ts
          else valid_ac_magnitudes bias ts := by
        rw [valid_ac_magnitudes,
          show List.filterMap id (some adc :: ts) = adc :: List.filterMap id ts by
            simp [List.filterMap_cons],
          List.map_cons, List.filter_cons]
        simp only [decide_eq_true_eq]
        rfl
      by_cases hac : |adc_to_voltage adc - bias| > 1 / 1000
      · show ts.foldl _ (if |adc_to_voltage adc - bias| > 1 / 1000
            then (acc.1 + |adc_to_voltage adc - bias|, acc.2 + 1) else acc) = _
        rw [if_pos hac, ih, hval, if_pos hac, List.sum_cons, List.length_cons,
          Prod.mk.injEq]
        refine ⟨by ring, by omega⟩
      · show ts.foldl _ (if |adc_to_voltage adc - bias| > 1 / 1000
            then (acc.1 + |adc_to_voltage adc - bias|, acc.2 + 1) else acc) = _
        rw [if_neg hac, ih, hval, if_neg hac]

/-- Closed form of calibrate_fold. -/
theorem calibrate_fold_eq (bias : ℚ) (ticks : List (Option ℚ)) :
    calibrate_fold bias ticks =
      ((valid_ac_magnitudes bias ticks).sum,
       (valid_ac_magnitudes bias ticks).length) := by
  rw [calibrate_fold, calibrate_fold_aux]
  simp

/-- Every collected magnitude exceeds the 0.001 V threshold. -/
theorem valid_ac_magnitudes_mem (bias : ℚ) (ticks : List (Option ℚ)) :
    ∀ x ∈ valid_ac_magnitudes bias ticks, x > 1 / 1000 := by
  intro x hx
  have := List.of_mem_filter hx
  simpa using this

/-- filterMap id keeps all successful ticks. -/
theorem filterMap_id_replicate_some (n : ℕ) (a : ℚ) :
    (List.replicate n (some a)).filterMap id = List.replicate n a := by
  induction n with
  | zero => rfl
  | succ m ih =>
    rw [List.replicate_succ, List.replicate_succ, List.filterMap_cons]
    simp [ih]

/-- filterMap id drops all failed ticks. -/
theorem filterMap_id_replicate_none (n : ℕ) :
    (List.replicate n (none : Option ℚ)).filterMap id = [] := by
  induction n with
  | zero => rfl
  | succ m ih =>
    rw [List.replicate_succ, List.filterMap_cons]
    simp [ih]

/-- Evaluation helper: the AC magnitude of a full-scale ADC tick at the
default bias is 1.65 V. -/
theorem valid_ac_full_scale (n : ℕ) :
    valid_ac_magnitudes (33 / 20) (List.replicate n (some 4095)) =
      List.replicate n (33 / 20) := by
  rw [valid_ac_magnitudes]
  rw [filterMap_id_replicate_some, List.map_replicate]
  rw [show |adc_to_voltage 4095 - 33 / 20| = 33 / 20 by
    rw [show adc_to_voltage 4095 - 33 / 20 = 33 / 20 by
      norm_num [adc_to_voltage, ADC_RESOLUTION, ADC_VOLTAGE_RANGE]]
    exact abs_of_pos (by norm_num)]
  rw [List.filter_replicate_of_pos (by norm_num)]

/-- Evaluation helper: read failures contribute no magnitudes. -/
theorem valid_ac_append_none (bias : ℚ) (ticks : List (Option ℚ)) (n : ℕ) :
    valid_ac_magnitudes bias (ticks ++ List.replicate n none) =
      valid_ac_magnitudes bias ticks := by
  rw [valid_ac_magnitudes, valid_ac_magnitudes, List.filterMap_append,
    filterMap_id_replicate_none, List.append_nil]

/-- C7 (amended): calibrate_with_known_load leaves the scale unchanged and
records no learning point when the known current is non-positive or above
100 A, or when at most 10 of the sampled ticks yield an AC magnitude above
the 0.001 V threshold (the code requires strictly more than 10 valid
samples); otherwise it sets scale = known / (average valid AC magnitude)
and records a manual learning point whose confidence is 1.0. -/
theorem C7_known_load_calibration (now : ℕ) (bias scale known : ℚ)
    (ticks : List (Option ℚ)) :
    calibrate_fold bias ticks =
      ((valid_ac_magnitudes bias ticks).sum,
       (valid_ac_magnitudes bias ticks).length) ∧
    (known ≤ 0 ∨ known > MAX_CURRENT_AMPS →
      calibrate_with_known_load now bias scale known ticks = (scale, none)) ∧
    ((valid_ac_magnitudes bias ticks).length ≤ 10 →
      calibrate_with_known_load now bias scale known ticks = (scale, none)) ∧
    (0 < known → known ≤ MAX_CURRENT_AMPS →
      10 < (valid_ac_magnitudes bias ticks).length →
      calibrate_with_known_load now bias scale known ticks =
        (known / ((valid_ac_magnitudes bias ticks).sum /
            ((valid_ac_magnitudes bias ticks).length : ℚ)),
         some (learn_from_calibration now known
           ((valid_ac_magnitudes bias ticks).sum /
             ((valid_ac_magnitudes bias ticks).length : ℚ)) true))) ∧
    (∀ e m : ℚ, (learn_from_calibration now e m true).confidence = 1) := by
  refine ⟨calibrate_fold_eq bias ticks, ?_, ?_, ?_, fun e m => rfl⟩
  · intro h
    rw [calibrate_with_known_load, if_pos h]
  · intro h
    rw [calibrate_with_known_load]
    by_cases hk : known ≤ 0 ∨ known > MAX_CURRENT_AMPS
    · rw [if_pos hk]
    · rw [if_neg hk, calibrate_fold_eq]
      rw [if_neg (by simpa using h)]
  · intro h1 h2 h3
    rw [calibrate_with_known_load,
      if_neg (by push_neg; exact ⟨h1, h2⟩), calibrate_fold_eq,
      if_pos (by simpa using h3)]

/-- Counterexample to C7 as stated: with exactly 10 valid ticks out of 50
(not "fewer than 10") and a valid known current, the calibration still
aborts, because the code requires strictly more than 10 valid samples. -/
theorem C7_counterexample :
    (List.replicate 10 (some (4095 : ℚ)) ++ List.replicate 40 none).length = 50 ∧
    (valid_ac_magnitudes (33 / 20)
      (List.replicate 10 (some 4095) ++ List.replicate 40 none)).length = 10 ∧
    (0 : ℚ) < 5 ∧ (5 : ℚ) ≤ MAX_CURRENT_AMPS ∧
    calibrate_with_known_load 0 (33 / 20) 200 5
      (List.replicate 10 (some 4095) ++ List.replicate 40 none) = (200, none) := by
  have hval : valid_ac_magnitudes (33 / 20)
      (List.replicate 10 (some (4095 : ℚ)) ++ List.replicate 40 none) =
      List.replicate 10 (33 / 20) := by
    rw [valid_ac_append_none, valid_ac_full_scale]
  refine ⟨by simp, by rw [hval]; simp, by norm_num,
    by norm_num [MAX_CURRENT_AMPS], ?_⟩
  rw [calibrate_with_known_load,
    if_neg (by push_neg; constructor <;> norm_num [MAX_CURRENT_AMPS]),
    calibrate_fold_eq, hval]
  rw [if_neg (by simp)]

/-- Witness for C7_known_load_calibration: 50 valid full-scale ticks with a
5 A known load calibrate the scale to 5 / 1.65 = 100/33 A/V and record a
confidence-1 manual point. -/
theorem C7_known_load_calibration_witness :
    ((0 : ℚ) < 5 ∧ (5 : ℚ) ≤ MAX_CURRENT_AMPS ∧
     10 < (valid_ac_magnitudes (33 / 20)
       (List.replicate 50 (some 4095))).length) ∧
    calibrate_with_known_load 7 (33 / 20) 200 5 (List.replicate 50 (some 4095)) =
      (100 / 33, some ⟨5, 33 / 20, 7, 1, false⟩) := by
  have hval : valid_ac_magnitudes (33 / 20)
      (List.replicate 50 (some (4095 : ℚ))) = List.replicate 50 (33 / 20) :=
    valid_ac_full_scale 50
  have hlen : 10 < (valid_ac_magnitudes (33 / 20)
      (List.replicate 50 (some (4095 : ℚ)))).length := by
    rw [hval]; simp
  have hmain := (C7_known_load_calibration 7 (33 / 20) 200 5
    (List.replicate 50 (some 4095))).2.2.2.1 (by norm_num)
    (by norm_num [MAX_CURRENT_AMPS]) hlen
  refine ⟨⟨by norm_num, by norm_num [MAX_CURRENT_AMPS], hlen⟩, ?_⟩
  rw [hmain, hval]
  rw [show ((List.replicate 50 ((33 : ℚ) / 20)).sum /
      ((List.replicate 50 ((33 : ℚ) / 20)).length : ℚ)) = 33 / 20 by
    rw [List.sum_replicate, List.length_replicate]
    norm_num]
  rw [learn_from_calibration, if_pos rfl]
  norm_num

/-- calibrate_with_known_load never writes a non-positive scale: on success
the new scale is a positive quotient, otherwise the old scale is kept. -/
theorem calibrate_with_known_load_pos (now : ℕ) (bias scale known : ℚ)
    (ticks : List (Option ℚ)) (h : 0 < scale) :
    0 < (calibrate_with_known_load now bias scale known ticks).1 := by
  rw [calibrate_with_known_load]
  by_cases hk : known ≤ 0 ∨ known > MAX_CURRENT_AMPS
  · rw [if_pos hk]; exact h
  · rw [if_neg hk, calibrate_fold_eq]
    push_neg at hk
    by_cases hlen : (valid_ac_magnitudes bias ticks).length > 10
    · rw [if_pos (by simpa using hlen)]
      have hsum : 0 < (valid_ac_magnitudes bias ticks).sum := by
        apply List.sum_pos
        · intro x hx
          have := valid_ac_magnitudes_mem bias ticks x hx
          linarith
        · rw [← List.length_pos]
          omega
      have hlenq : (0 : ℚ) < ((valid_ac_magnitudes bias ticks).length : ℚ) := by
        exact_mod_cast show 0 < (valid_ac_magnitudes bias ticks).length by omega
      exact div_pos hk.1 (div_pos hsum hlenq)
    · rw [if_neg (by simpa using hlen)]
      exact h


/-- apply_learned_calibration preserves a positive scale: the accepted
estimate is within ±50 % of the current scale and the damped blend of two
positive quantities is positive; all rejecting branches keep the scale. -/
theorem apply_learned_calibration_pos (now : ℕ) (lr : ℚ)
    (points : List CalibrationPoint) (s : ℝ) (h : 0 < s) :
    0 < apply_learned_calibration now lr points s := by
  rw [apply_learned_calibration]
  by_cases h1 : points.length < MIN_LEARNING_POINTS
  · rw [if_pos h1]; exact h
  · rw [if_neg h1]
    by_cases h2 : (learning_accumulate now lr points).2.1 > 1 / 1000 ∧
        (learning_accumulate now lr points).2.2 > 1 / 10
    · rw [if_pos h2]
      by_cases h3 : (learning_accumulate now lr points).1 /
            (learning_accumulate now lr points).2.1 > s * (1 / 2) ∧
          (learning_accumulate now lr points).1 /
            (learning_accumulate now lr points).2.1 < s * (3 / 2)
      · rw [if_pos h3]
        nlinarith [h3.1]
      · rw [if_neg h3]; exact h
    · rw [if_neg h2]; exact h

/-- C8 (amended): the MANUAL_CAL command stores the supplied scale factor
unchecked, so scale_factor > 0 is not an invariant of the full command set;
it is preserved by every other modelled calibration-parameter operation
(SET_BIAS, SET_SCALE, SCALE_CAL, ZERO_CAL, RESET_CAL) and by the learned
calibration update. -/
theorem C8_scale_positivity (now : ℕ) (cmd : Command) (p : CalParams)
    (lr : ℚ) (points : List CalibrationPoint) (s : ℝ)
    (hp : 0 < p.scale) (hs : 0 < s)
    (hcmd : ∀ b sc : ℚ, cmd ≠ Command.manualCal b sc) :
    (∀ b sc : ℚ, ∀ q : CalParams,
      process_udp_command now (.manualCal b sc) q = (⟨b, sc⟩, .success)) ∧
    0 < (process_udp_command now cmd p).1.scale ∧
    0 < apply_learned_calibration now lr points s := by
  refine ⟨fun b sc q => rfl, ?_, apply_learned_calibration_pos now lr points s hs⟩
  cases cmd with
  | manualCal b sc => exact absurd rfl (hcmd b sc)
  | setBias v =>
    rw [process_udp_command]
    by_cases hv : 1 / 10 ≤ v ∧ v ≤ 3
    · rw [if_pos hv]; exact hp
    · rw [if_neg hv]; exact hp
  | setScale v =>
    rw [process_udp_command]
    by_cases hv : 1 ≤ v ∧ v ≤ 1000
    · rw [if_pos hv]
      show (0 : ℚ) < v
      linarith [hv.1]
    · rw [if_neg hv]; exact hp
  | scaleCal k ticks =>
    exact calibrate_with_known_load_pos now p.bias p.scale k ticks hp
  | zeroCal ticks => exact hp
  | resetCal =>
    show (0 : ℚ) < 200
    norm_num

/-- Counterexample to C8 as stated: a single MANUAL_CAL command with a
negative scale leaves the stored scale factor at -5. -/
theorem C8_counterexample :
    (0 : ℚ) < (⟨33 / 20, 200⟩ : CalParams).scale ∧
    process_udp_command 0 (.manualCal (33 / 20) (-5)) ⟨33 / 20, 200⟩ =
      (⟨33 / 20, -5⟩, .success) ∧
    ¬ (0 < (process_udp_command 0
        (.manualCal (33 / 20) (-5)) ⟨33 / 20, 200⟩).1.scale) := by
  refine ⟨by norm_num, rfl, ?_⟩
  show ¬ (0 : ℚ) < -5
  norm_num

/-- Witness for C8_scale_positivity with a SET_SCALE command. -/
theorem C8_scale_positivity_witness :
    ((0 : ℚ) < (⟨33 / 20, 200⟩ : CalParams).scale ∧ (0 : ℝ) < 100) ∧
    0 < (process_udp_command 0 (.setScale 500) ⟨33 / 20, 200⟩).1.scale ∧
    0 < apply_learned_calibration 0 1 [] 100 := by
  have hmain := C8_scale_positivity 0 (.setScale 500) ⟨33 / 20, 200⟩ 1 [] 100
    (by norm_num) (by norm_num) (fun b sc => by simp)
  exact ⟨⟨by norm_num, by norm_num⟩, hmain.2.1, hmain.2.2⟩



/-- The RMS sampling loop accumulates the count of valid ticks and the sum
of squared AC voltages, in order. -/
theorem rms_fold_aux (bias : ℚ) (ticks : List (Option ℚ)) :
    ∀ acc : ℕ × ℚ,
      ticks.foldl
        (fun acc t =>
          match t with
          | some adc =>
            let ac := adc_to_voltage adc - bias
            (acc.1 + 1, acc.2 + ac * ac)
          | none => acc)
        acc =
      (acc.1 + (ac_samples bias ticks).length,
       acc.2 + ((ac_samples bias ticks).map (fun v => v * v)).sum) := by
  induction ticks with
  | nil => intro acc; simp [ac_samples]
  | cons t ts ih =>
    intro acc
    rw [List.foldl_cons]
    cases t with
    | none =>
      rw [ih]
      simp [ac_samples, List.filterMap_cons]
    | some adc =>
      have hsamp : ac_samples bias (some adc :: ts) =
          (adc_to_voltage adc - bias) :: ac_samples bias ts := by
        rw [ac_samples,
          show List.filterMap id (some adc :: ts) = adc :: List.filterMap id ts by
            simp [List.filterMap_cons],
          List.map_cons]
        rfl
      show ts.foldl _
          (acc.1 + 1, acc.2 + (adc_to_voltage adc - bias) * (adc_to_voltage adc - bias))
          = _
      rw [ih, hsamp, List.length_cons, List.map_cons, List.sum_cons, Prod.mk.injEq]
      refine ⟨by omega, by ring⟩

/-- Closed form of rms_fold. -/
theorem rms_fold_eq (bias : ℚ) (ticks : List (Option ℚ)) :
    rms_fold bias ticks =
      ((ac_samples bias ticks).length,
       ((ac_samples bias ticks).map (fun v => v * v)).sum) := by
  rw [rms_fold, rms_fold_aux]
  simp

/-- C5: the RMS engine averages only over the successfully read ticks,
returning sqrt(mean of squared AC voltages) * scale; with zero valid ticks
it returns 0 rather than an error; and when every successfully read tick
converts exactly to the bias voltage the result is 0. -/
theorem C5_rms_measurement (bias scale : ℚ) (ticks : List (Option ℚ)) :
    rms_fold bias ticks =
      ((ac_samples bias ticks).length,
       ((ac_samples bias ticks).map (fun v => v * v)).sum) ∧
    ((ac_samples bias ticks).length ≠ 0 →
      measure_rms_current bias scale ticks =
        Real.sqrt (((((ac_samples bias ticks).map (fun v => v * v)).sum : ℚ) : ℝ) /
            ((ac_samples bias ticks).length : ℝ)) * (scale : ℝ)) ∧
    ((ac_samples bias ticks).length = 0 →
      measure_rms_current bias scale ticks = 0) ∧
    ((∀ o ∈ ticks, ∀ adc : ℚ, o = some adc → adc_to_voltage adc = bias) →
      measure_rms_current bias scale ticks = 0) := by
  refine ⟨rms_fold_eq bias ticks, ?_, ?_, ?_⟩
  · intro hne
    rw [measure_rms_current, rms_fold_eq]
    simp only
    rw [if_neg hne]
  · intro hz
    rw [measure_rms_current, rms_fold_eq]
    simp only
    rw [if_pos hz]
  · intro hbias
    have hzero : ∀ v ∈ ac_samples bias ticks, v = 0 := by
      intro v hv
      rw [ac_samples, List.mem_map] at hv
      obtain ⟨adc, hadc, hveq⟩ := hv
      rw [List.mem_filterMap] at hadc
      obtain ⟨o, ho, hoeq⟩ := hadc
      have := hbias o ho adc (by simp only [id] at hoeq; rw [hoeq])
      rw [← hveq, this, sub_self]
    have hsum : ((ac_samples bias ticks).map (fun v => v * v)).sum = 0 := by
      apply List.sum_eq_zero
      intro x hx
      rw [List.mem_map] at hx
      obtain ⟨v, hv, hxeq⟩ := hx
      rw [← hxeq, hzero v hv, mul_zero]
    rw [measure_rms_current, rms_fold_eq]
    simp only
    by_cases hlen : (ac_samples bias ticks).length = 0
    · rw [if_pos hlen]
    · rw [if_neg hlen, hsum]
      push_cast
      rw [zero_div, Real.sqrt_zero, zero_mul]

/-- Witness for C5_rms_measurement: 100 constant raw samples converting
exactly to the 1.65 V bias yield current 0. -/
theorem C5_rms_measurement_witness :
    (∀ o ∈ List.replicate 100 (some ((4095 : ℚ) / 2)), ∀ adc : ℚ,
      o = some adc → adc_to_voltage adc = 33 / 20) ∧
    measure_rms_current (33 / 20) 200 (List.replicate 100 (some (4095 / 2))) = 0 ∧
    measure_rms_current (33 / 20) 200 (List.replicate 100 none) = 0 := by
  have hconv : ∀ o ∈ List.replicate 100 (some ((4095 : ℚ) / 2)), ∀ adc : ℚ,
      o = some adc → adc_to_voltage adc = 33 / 20 := by
    intro o ho adc heq
    rw [List.mem_replicate] at ho
    rw [ho.2] at heq
    obtain rfl : (4095 : ℚ) / 2 = adc := by simpa using heq
    norm_num [adc_to_voltage, ADC_RESOLUTION, ADC_VOLTAGE_RANGE]
  have hnone : (ac_samples (33 / 20) (List.replicate 100 none)).length = 0 := by
    rw [ac_samples, filterMap_id_replicate_none]
    rfl
  exact ⟨hconv,
    (C5_rms_measurement (33 / 20) 200 (List.replicate 100 (some (4095 / 2)))).2.2.2
      hconv,
    (C5_rms_measurement (33 / 20) 200 (List.replicate 100 none)).2.2.1 hnone⟩



/-- The learning accumulation loop computes the weighted sums over the
points with non-negligible measured voltage. -/
theorem learning_accumulate_aux (now : ℕ) (lr : ℚ)
    (points : List CalibrationPoint) :
    ∀ acc : ℝ × ℝ × ℝ,
      points.foldl
        (fun acc p =>
          let w := point_weight lr now p
          if p.measured_voltage > 1 / 1000 then
            (acc.1 + (p.expected_current : ℝ) * w,
             acc.2.1 + (p.measured_voltage : ℝ) * w,
             acc.2.2 + w)
          else acc)
        acc =
      (acc.1 + ((points.filter (fun p => decide (p.measured_voltage > 1 / 1000))).map
          (fun p => (p.expected_current : ℝ) * point_weight lr now p)).sum,
       acc.2.1 + ((points.filter (fun p => decide (p.measured_voltage > 1 / 1000))).map
          (fun p => (p.measured_voltage : ℝ) * point_weight lr now p)).sum,
       acc.2.2 + ((points.filter (fun p => decide (p.measured_voltage > 1 / 1000))).map
          (point_weight lr now)).sum) := by
  induction points with
  | nil => intro acc; simp
  | cons p ps ih =>
    intro acc
    rw [List.foldl_cons]
    by_cases hp : p.measured_voltage > 1 / 1000
    · show ps.foldl _
          (if p.measured_voltage > 1 / 1000 then
            (acc.1 + (p.expected_current : ℝ) * point_weight lr now p,
             acc.2.1 + (p.measured_voltage : ℝ) * point_weight lr now p,
             acc.2.2 + point_weight lr now p)
          else acc) = _
      rw [if_pos hp]
      rw [ih]
      rw [List.filter_cons, if_pos (by simpa using hp)]
      simp only [List.map_cons, List.sum_cons, Prod.mk.injEq]
      refine ⟨by ring, by ring, by ring⟩
    · show ps.foldl _
          (if p.measured_voltage > 1 / 1000 then
            (acc.1 + (p.expected_current : ℝ) * point_weight lr now p,
             acc.2.1 + (p.measured_voltage : ℝ) * point_weight lr now p,
             acc.2.2 + point_weight lr now p)
          else acc) = _
      rw [if_neg hp, ih]
      rw [List.filter_cons, if_neg (by simpa using hp)]

/-- Closed form of learning_accumulate. -/
theorem learning_accumulate_eq (now : ℕ) (lr : ℚ)
    (points : List CalibrationPoint) :
    learning_accumulate now lr points =
      (((points.filter (fun p => decide (p.measured_voltage > 1 / 1000))).map
          (fun p => (p.expected_current : ℝ) * point_weight lr now p)).sum,
       ((points.filter (fun p => decide (p.measured_voltage > 1 / 1000))).map
          (fun p => (p.measured_voltage : ℝ) * point_weight lr now p)).sum,
       ((points.filter (fun p => decide (p.measured_voltage > 1 / 1000))).map
          (point_weight lr now)).sum) := by
  rw [learning_accumulate, learning_accumulate_aux]
  simp

/-- A point with zero age has weight confidence * learning_rate. -/
theorem point_weight_zero_age (lr : ℚ) (now : ℕ) (p : CalibrationPoint)
    (h : p.timestamp = now) :
    point_weight lr now p = (p.confidence : ℝ) * (lr : ℝ) := by
  rw [point_weight, h, Nat.sub_self]
  rw [show ((0 : ℕ) : ℝ) / (24 * 60 * 60 * 1000) = 0 by norm_num]
  rw [Real.rpow_zero, mul_one]


/-- Evaluation of the two-point fresh-manual-point example of the claim. -/
theorem learned_scale_estimate_example :
    learned_scale_estimate 0 1
      [⟨5, 1 / 40, 0, 1, false⟩, ⟨10, 1 / 20, 0, 1, false⟩] = 200 := by
  have hw1 : point_weight 1 0 (⟨5, 1 / 40, 0, 1, false⟩ : CalibrationPoint) = 1 := by
    rw [point_weight_zero_age 1 0 _ rfl]
    norm_num
  have hw2 : point_weight 1 0 (⟨10, 1 / 20, 0, 1, false⟩ : CalibrationPoint) = 1 := by
    rw [point_weight_zero_age 1 0 _ rfl]
    norm_num
  rw [learned_scale_estimate, learning_accumulate_eq]
  rw [List.filter_cons, if_pos (by norm_num), List.filter_cons,
    if_pos (by norm_num), List.filter_nil]
  simp only [List.map_cons, List.map_nil, List.sum_cons, List.sum_nil, hw1, hw2]
  push_cast
  norm_num

/-- C3: apply_learned_calibration does nothing with fewer than 3 points;
the accumulation sums expected*weight, measured*weight and weight over the
points with measured voltage above 0.001 V, with
weight = confidence * 0.95^(age in days) * learning_rate; past the
epsilon gates the estimate numerator/denominator is accepted only strictly
within ±50 % of the current scale, updating it to
0.7*current + 0.3*learned; and the two fresh manual points (5 A, 0.025 V)
and (10 A, 0.05 V) with confidence 1 and learning rate 1 give
learned_scale = 200. -/
theorem C3_learned_calibration (now : ℕ) (lr : ℚ)
    (points : List CalibrationPoint) (s : ℝ) :
    (points.length < 3 → apply_learned_calibration now lr points s = s) ∧
    learning_accumulate now lr points =
      (((points.filter (fun p => decide (p.measured_voltage > 1 / 1000))).map
          (fun p => (p.expected_current : ℝ) * point_weight lr now p)).sum,
       ((points.filter (fun p => decide (p.measured_voltage > 1 / 1000))).map
          (fun p => (p.measured_voltage : ℝ) * point_weight lr now p)).sum,
       ((points.filter (fun p => decide (p.measured_voltage > 1 / 1000))).map
          (point_weight lr now)).sum) ∧
    (∀ p : CalibrationPoint, point_weight lr now p =
      (p.confidence : ℝ) *
        ((95 / 100 : ℝ) ^ (((now - p.timestamp : ℕ) : ℝ) / 86400000)) *
        (lr : ℝ)) ∧
    (3 ≤ points.length →
      (learning_accumulate now lr points).2.1 > 1 / 1000 →
      (learning_accumulate now lr points).2.2 > 1 / 10 →
      (((learning_accumulate now lr points).1 /
            (learning_accumulate now lr points).2.1 > s * (1 / 2) ∧
        (learning_accumulate now lr points).1 /
            (learning_accumulate now lr points).2.1 < s * (3 / 2)) →
        apply_learned_calibration now lr points s =
          s * (7 / 10) + ((learning_accumulate now lr points).1 /
            (learning_accumulate now lr points).2.1) * (3 / 10)) ∧
      (¬ ((learning_accumulate now lr points).1 /
            (learning_accumulate now lr points).2.1 > s * (1 / 2) ∧
          (learning_accumulate now lr points).1 /
            (learning_accumulate now lr points).2.1 < s * (3 / 2)) →
        apply_learned_calibration now lr points s = s)) ∧
    learned_scale_estimate 0 1
      [⟨5, 1 / 40, 0, 1, false⟩, ⟨10, 1 / 20, 0, 1, false⟩] = 200 := by
  refine ⟨?_, learning_accumulate_eq now lr points, ?_, ?_,
    learned_scale_estimate_example⟩
  · intro h
    rw [apply_learned_calibration, if_pos (show points.length <
      MIN_LEARNING_POINTS from h)]
  · intro p
    rw [point_weight]
    norm_num [LEARNING_CONFIDENCE_DECAY]
  · intro hlen hden hw
    have hnotlt : ¬ points.length < MIN_LEARNING_POINTS := by
      rw [MIN_LEARNING_POINTS]; omega
    constructor
    · intro hacc
      rw [apply_learned_calibration, if_neg hnotlt, if_pos ⟨hden, hw⟩,
        if_pos hacc]
    · intro hacc
      rw [apply_learned_calibration, if_neg hnotlt, if_pos ⟨hden, hw⟩,
        if_neg hacc]

/-- Witness for C3_learned_calibration: the empty store is left unchanged
and the two-point example estimator yields 200. -/
theorem C3_learned_calibration_witness :
    (List.length ([] : List CalibrationPoint) < 3) ∧
    apply_learned_calibration 0 1 [] 100 = 100 ∧
    learned_scale_estimate 0 1
      [⟨5, 1 / 40, 0, 1, false⟩, ⟨10, 1 / 20, 0, 1, false⟩] = 200 := by
  have hmain := C3_learned_calibration 0 1 [] 100
  exact ⟨by norm_num, hmain.1 (by norm_num), hmain.2.2.2.2⟩


end SmartPlug
